import Mathlib

/-!
# Verification of the AQI Prediction App (`app.py`)

A shallow embedding of the logic of the program in Lean 4.  Numeric values that
the Python program holds in floating point are modelled as rationals (`ℚ`),
so that every constant of the source (`1.05`, `50.01`, …) is represented
exactly and all predicates are decidable.

The embedding follows `app.py`:
* `load_pickle`            — the artifact-load helper (lines 19–25);
* `assign_aqi_bucket`      — the bucket classifier (lines 27–40);
* startup artifact loading and the all-present gate (lines 46–54);
* `features_without` / `features_with` / `selected_features`
                            — the feature schemas (lines 60–65, 103);
* model/scaler selection by mode (lines 122–127);
* the guarded transform/predict step (lines 130–135);
* calibration and clipping (lines 142–145).
-/

namespace AQIApp

/-- `np.clip(a, a_min, a_max)`: `min (max a a_min) a_max` (app.py line 145
uses `np.clip(calibrated_aqi, 0, 500)`). -/
def np_clip (a a_min a_max : ℚ) : ℚ :=
  min (max a a_min) a_max

/-- The affine calibration of app.py line 142:
`calibrated_aqi = 1.05 * predicted_aqi + 10`. -/
def calibrated_raw (predicted_aqi : ℚ) : ℚ :=
  1.05 * predicted_aqi + 10

/-- Lines 142–145 of app.py taken together: calibrate the raw prediction and
clip the result to the AQI range [0, 500]. -/
def calibrate (predicted_aqi : ℚ) : ℚ :=
  np_clip (calibrated_raw predicted_aqi) 0 500

/-- The clamp described by the words of the spec: values below 0 become 0, values
above 500 become 500, values in between are unchanged.  Stated separately so
that the `np.clip` formulation of the code can be proved to refine it. -/
def clamp_spec (x : ℚ) : ℚ :=
  if x < 0 then 0 else if x > 500 then 500 else x

/-- `assign_aqi_bucket` (app.py lines 27–40): assign an AQI category and
marker based on the value, by an upper-inclusive if-chain. -/
def assign_aqi_bucket (aqi : ℚ) : String × String :=
  if aqi ≤ 50 then ("Good", "🟢")
  else if aqi ≤ 100 then ("Satisfactory", "🟡")
  else if aqi ≤ 200 then ("Moderate", "🟠")
  else if aqi ≤ 300 then ("Poor", "🔴")
  else if aqi ≤ 400 then ("Very Poor", "🟣")
  else ("Severe", "⚫")

/-- The six (label, marker) pairs that `assign_aqi_bucket` can return,
in band order. -/
def bucket_table : List (String × String) :=
  [("Good", "🟢"), ("Satisfactory", "🟡"), ("Moderate", "🟠"),
   ("Poor", "🔴"), ("Very Poor", "🟣"), ("Severe", "⚫")]

/-- The six bands exactly as the claim lists them:
(0,50], (50,100], (100,200], (200,300], (300,400], (400,500].
`claimed_band i v` holds when `v` lies in the `i`-th listed band. -/
def claimed_band (i : Fin 6) (v : ℚ) : Prop :=
  match i with
  | 0 => 0 < v ∧ v ≤ 50
  | 1 => 50 < v ∧ v ≤ 100
  | 2 => 100 < v ∧ v ≤ 200
  | 3 => 200 < v ∧ v ≤ 300
  | 4 => 300 < v ∧ v ≤ 400
  | 5 => 400 < v ∧ v ≤ 500

instance (i : Fin 6) (v : ℚ) : Decidable (claimed_band i v) := by
  unfold claimed_band
  match i with
  | 0 | 1 | 2 | 3 | 4 | 5 => exact inferInstance

/-- The bands with the lowest one closed at 0 — `[0,50]`, then (50,100],
(100,200], (200,300], (300,400], (400,500] — matching the regions the
if-chain of `assign_aqi_bucket` carves out of [0, 500]. -/
def code_band (i : Fin 6) (v : ℚ) : Prop :=
  match i with
  | 0 => 0 ≤ v ∧ v ≤ 50
  | 1 => 50 < v ∧ v ≤ 100
  | 2 => 100 < v ∧ v ≤ 200
  | 3 => 200 < v ∧ v ≤ 300
  | 4 => 300 < v ∧ v ≤ 400
  | 5 => 400 < v ∧ v ≤ 500

instance (i : Fin 6) (v : ℚ) : Decidable (code_band i v) := by
  unfold code_band
  match i with
  | 0 | 1 | 2 | 3 | 4 | 5 => exact inferInstance

/-- The label and marker `assign_aqi_bucket` gives to the `i`-th band. -/
def band_label : Fin 6 → String × String
  | 0 => ("Good", "🟢")
  | 1 => ("Satisfactory", "🟡")
  | 2 => ("Moderate", "🟠")
  | 3 => ("Poor", "🔴")
  | 4 => ("Very Poor", "🟣")
  | 5 => ("Severe", "⚫")

/-- The band index the if-chain of `assign_aqi_bucket` computes. -/
def bucket_index (v : ℚ) : Fin 6 :=
  if v ≤ 50 then 0
  else if v ≤ 100 then 1
  else if v ≤ 200 then 2
  else if v ≤ 300 then 3
  else if v ≤ 400 then 4
  else 5

/-- `features_without` (app.py lines 60–63): the 11 pollutant names of the
"Without Xylene" schema, in their fixed order. -/
def features_without : List String :=
  ["PM2.5", "PM10", "NO", "NO2", "NOx",
   "NH3", "CO", "SO2", "O3", "Benzene", "Toluene"]

/-- `features_with` (app.py line 65): `features_without` with the string `Xylene` appended. -/
def features_with : List String :=
  features_without ++ ["Xylene"]

/-- `selected_features` (app.py line 103):
`features_with if model_choice == "With Xylene" else features_without`. -/
def selected_features (model_choice : String) : List String :=
  if model_choice = "With Xylene" then features_with else features_without

/-- The input-collection loop (app.py lines 105–112, 119): one value per
feature of the active schema, assembled in schema order into the one-row
feature vector handed to the scaler.  `user_input` gives the value the user
entered for each feature name. -/
def assemble_input (model_choice : String) (user_input : String → ℚ) : List ℚ :=
  (selected_features model_choice).map user_input

/-- The four artifacts loaded at startup (app.py lines 46–50):
two models and two scalers, one pair per mode. -/
structure Artifacts (μ σ : Type) where
  model_with : μ
  model_without : μ
  scaler_with : σ
  scaler_without : σ

/-- The model branch of app.py lines 122–127:
`model = model_with if model_choice == "With Xylene" else model_without`. -/
def select_model {μ σ : Type} (model_choice : String) (a : Artifacts μ σ) : μ :=
  if model_choice = "With Xylene" then a.model_with else a.model_without

/-- The scaler branch of app.py lines 122–127:
`scaler = scaler_with if model_choice == "With Xylene" else scaler_without`. -/
def select_scaler {μ σ : Type} (model_choice : String) (a : Artifacts μ σ) : σ :=
  if model_choice = "With Xylene" then a.scaler_with else a.scaler_without

/-- The error message `load_pickle` surfaces via `st.error` (app.py line 24):
an f-string interpolating the path and the exception text. -/
def load_error_message (path cause : String) : String :=
  "❌ Failed to load file: " ++ path ++ "\nError: " ++ cause

/-- `load_pickle` (app.py lines 19–25).  The effect of `open`+`pickle.load`
is modelled by `read_pickle : String → Except String α`: `Except.ok` is a
successful deserialization, `Except.error e` is any raised exception with
text `e`.  The result pairs the returned value (`none` models the Python value
`None`) with the list of user-visible error messages emitted. -/
def load_pickle {α : Type} (read_pickle : String → Except String α)
    (path : String) : Option α × List String :=
  match read_pickle path with
  | Except.ok a => (some a, [])
  | Except.error e => (none, [load_error_message path e])

/-- The four artifact paths in the order app.py loads them (lines 46–50). -/
def artifact_paths : List String :=
  ["best_model_with_Xylene.pkl", "best_model.pkl",
   "scaler_with.pkl", "scaler_without.pkl"]

/-- The state the script reaches after the startup section: either halted by
`st.stop()` at line 54 (so the input widgets and the Predict button are never
rendered), or interactive with all four artifacts available. -/
inductive AppRun (μ σ : Type) where
  | haltedAtStartup (errors : List String)
  | interactive (a : Artifacts μ σ)

/-- Startup (app.py lines 46–54): load the four artifacts, and if
`not all([model_with, model_without, scaler_with, scaler_without])`
(a failed load returned `None`, which is falsy) emit the summary error and
`st.stop()` before any widget of the prediction interface exists. -/
def startup {α : Type} (read_pickle : String → Except String α) : AppRun α α :=
  let r1 := load_pickle read_pickle "best_model_with_Xylene.pkl"
  let r2 := load_pickle read_pickle "best_model.pkl"
  let r3 := load_pickle read_pickle "scaler_with.pkl"
  let r4 := load_pickle read_pickle "scaler_without.pkl"
  match r1.1, r2.1, r3.1, r4.1 with
  | some mw, some mo, some sw, some so =>
      AppRun.interactive ⟨mw, mo, sw, so⟩
  | _, _, _, _ =>
      AppRun.haltedAtStartup
        (r1.2 ++ r2.2 ++ r3.2 ++ r4.2 ++
          ["❌ Missing model or scaler file(s). Please ensure all are present."])

/-- Whether the run reached the prediction interface. -/
def prediction_available {μ σ : Type} : AppRun μ σ → Bool
  | AppRun.haltedAtStartup _ => false
  | AppRun.interactive _ => true

/-- The outcome of one Predict trigger: either aborted by the
`except` branch (app.py lines 133–135, `st.error` then `st.stop()`, so
nothing of lines 137–171 runs), or a displayed result. -/
inductive Outcome where
  | aborted (message : String)
  | displayed (calibrated_aqi : ℚ) (bucket emoji : String)
deriving DecidableEq

/-- The body of the Predict button (app.py lines 118–160).  `transform` and
`predict` are the opaque scaler/model calls, modelled as fallible functions
(`Except.error e` is a raised exception with text `e`); `predict` returns the
prediction array from which element 0 is taken by `model.predict(...)[0]`. -/
def predict_interaction
    (transform : List ℚ → Except String (List ℚ))
    (predict : List ℚ → Except String (List ℚ))
    (input_values : List ℚ) : Outcome :=
  let attempt : Except String ℚ :=
    match transform input_values with
    | Except.error e => Except.error e
    | Except.ok input_scaled =>
      match predict input_scaled with
      | Except.error e => Except.error e
      | Except.ok preds =>
        match preds.head? with
        | some p => Except.ok p
        | none => Except.error "index 0 is out of bounds for axis 0 with size 0"
  match attempt with
  | Except.error e => Outcome.aborted ("Prediction failed: " ++ e)
  | Except.ok predicted_aqi =>
    let calibrated_aqi := 1.05 * predicted_aqi + 10
    let clipped := np_clip calibrated_aqi 0 500
    let be := assign_aqi_bucket clipped
    Outcome.displayed clipped be.1 be.2

/-- One full Predict trigger with mode-based artifact selection
(app.py lines 118–135): assemble the input vector in schema order, select
the model and scaler by the active mode, and run the guarded
transform/predict step.  `apply_scaler` and `apply_model` give the behaviour
of each opaque artifact. -/
def run_trigger {μ σ : Type} (model_choice : String) (a : Artifacts μ σ)
    (apply_scaler : σ → List ℚ → Except String (List ℚ))
    (apply_model : μ → List ℚ → Except String (List ℚ))
    (user_input : String → ℚ) : Outcome :=
  let input_values := assemble_input model_choice user_input
  let model := select_model model_choice a
  let scaler := select_scaler model_choice a
  predict_interaction (apply_scaler scaler) (apply_model model) input_values


/-- Errors displayed by the run: the messages shown when the script halted at
startup (an interactive run displayed none at startup). -/
def displayed_errors {μ σ : Type} : AppRun μ σ → List String
  | AppRun.haltedAtStartup errors => errors
  | AppRun.interactive _ => []

/-- A reader on which every pickle load fails, as when no artifact file is
present in the working directory. -/
def broken_read : String → Except String ℕ :=
  fun _ => Except.error "No such file or directory"

/-- Claim C1: for every raw prediction `r`, the calibration step of app.py
lines 142–145 computes `np.clip(1.05*r + 10, 0, 500)`, which equals the
clamp of the spec — values of `1.05*r + 10` below 0 become 0, values above
500 become 500, and values in between are unchanged. -/
theorem calibrate_refines_clamp (r : ℚ) :
    calibrate r = np_clip (1.05 * r + 10) 0 500 ∧
    calibrate r = clamp_spec (1.05 * r + 10) := by
  refine ⟨rfl, ?_⟩
  unfold calibrate clamp_spec np_clip calibrated_raw
  rcases lt_or_le (1.05 * r + 10) 0 with h | h
  · rw [if_pos h, max_eq_right h.le, min_eq_left]
    norm_num
  · rw [if_neg (not_lt.mpr h), max_eq_left h]
    rcases lt_or_le 500 (1.05 * r + 10) with h2 | h2
    · rw [if_pos h2, min_eq_right h2.le]
    · rw [if_neg (not_lt.mpr h2), min_eq_left h2]

/-- Claim C2: the bucket classification is upper-inclusive at every
boundary — `assign_aqi_bucket` maps 50 to Good, 50.01 to Satisfactory,
100 to Satisfactory, 100.01 to Moderate, 500 to Severe, and 0 (the value
reached after clipping a negative calibrated result such as -5) to Good. -/
theorem bucket_boundary_values :
    assign_aqi_bucket 50 = ("Good", "🟢") ∧
    assign_aqi_bucket 50.01 = ("Satisfactory", "🟡") ∧
    assign_aqi_bucket 100 = ("Satisfactory", "🟡") ∧
    assign_aqi_bucket 100.01 = ("Moderate", "🟠") ∧
    assign_aqi_bucket 500 = ("Severe", "⚫") ∧
    np_clip (-5) 0 500 = 0 ∧
    assign_aqi_bucket (np_clip (-5) 0 500) = ("Good", "🟢") ∧
    assign_aqi_bucket 0 = ("Good", "🟢") := by
  norm_num [assign_aqi_bucket, np_clip]

/-- Claim C3, counterexample: the value 0 lies in the closed range [0, 500]
but in none of the six bands exactly as the claim lists them —
(0,50], (50,100], (100,200], (200,300], (300,400], (400,500] — because the
first listed band is open at 0.  So those six bands do not cover [0, 500]. -/
theorem claimed_bands_miss_zero :
    (0 : ℚ) ≤ 0 ∧ (0 : ℚ) ≤ 500 ∧
    ¬ claimed_band 0 0 ∧ ¬ claimed_band 1 0 ∧ ¬ claimed_band 2 0 ∧
    ¬ claimed_band 3 0 ∧ ¬ claimed_band 4 0 ∧ ¬ claimed_band 5 0 := by
  norm_num [claimed_band]

/-- The label `assign_aqi_bucket` returns is the label of the band index the
if-chain computes. -/
theorem bucket_eq_label (v : ℚ) :
    assign_aqi_bucket v = band_label (bucket_index v) := by
  unfold assign_aqi_bucket bucket_index
  split_ifs <;> rfl

/-- On [0, 500], membership in the `i`-th code band is equivalent to the
if-chain selecting index `i`. -/
theorem code_band_iff (v : ℚ) (h0 : 0 ≤ v) (h500 : v ≤ 500) (i : Fin 6) :
    code_band i v ↔ i = bucket_index v := by
  unfold bucket_index
  fin_cases i <;>
    simp only [code_band] <;>
    split_ifs with h1 h2 h3 h4 h5 <;>
    constructor <;>
    intro hh <;>
    first
      | rfl
      | (exact ⟨by linarith, by linarith⟩)
      | (exfalso; rcases hh with ⟨ha, hb⟩; linarith)
      | (exfalso; exact absurd hh (by simp))

/-- Claim C3, amended: with the first band closed at 0 — [0,50], (50,100],
(100,200], (200,300], (300,400], (400,500] — the six bands cover [0, 500]
with no gaps and no overlaps: after clamping, every value in [0, 500] falls
into exactly one band, and that band carries the label and marker
`assign_aqi_bucket` returns for the value. -/
theorem code_bands_partition_Icc (v : ℚ) (h0 : 0 ≤ v) (h500 : v ≤ 500) :
    (∃! i : Fin 6, code_band i v) ∧
    (∀ i : Fin 6, code_band i v → assign_aqi_bucket v = band_label i) := by
  constructor
  · exact ⟨bucket_index v, (code_band_iff v h0 h500 _).mpr rfl,
      fun j hj => (code_band_iff v h0 h500 j).mp hj⟩
  · intro i hi
    rw [(code_band_iff v h0 h500 i).mp hi]
    exact bucket_eq_label v

/-- Witness for the amended claim C3, at the clamped value 104.5. -/
theorem code_bands_partition_witness :
    ((0 : ℚ) ≤ 104.5 ∧ (104.5 : ℚ) ≤ 500) ∧
    ((∃! i : Fin 6, code_band i 104.5) ∧
      (∀ i : Fin 6, code_band i 104.5 →
        assign_aqi_bucket 104.5 = band_label i)) :=
  ⟨⟨by norm_num, by norm_num⟩,
    code_bands_partition_Icc 104.5 (by norm_num) (by norm_num)⟩

/-- Claim C4: the scaler and model are selected strictly by the active
mode — the choice "With Xylene" selects `model_with` and `scaler_with`, any
other choice selects `model_without` and `scaler_without`, and the selected
pair is always one of those two pairs, never a mix. -/
theorem mode_isolation {μ σ : Type} (model_choice : String)
    (a : Artifacts μ σ) :
    (model_choice = "With Xylene" →
      select_model model_choice a = a.model_with ∧
      select_scaler model_choice a = a.scaler_with) ∧
    (model_choice ≠ "With Xylene" →
      select_model model_choice a = a.model_without ∧
      select_scaler model_choice a = a.scaler_without) ∧
    ((select_model model_choice a, select_scaler model_choice a) =
        (a.model_with, a.scaler_with) ∨
     (select_model model_choice a, select_scaler model_choice a) =
        (a.model_without, a.scaler_without)) := by
  unfold select_model select_scaler
  by_cases h : model_choice = "With Xylene" <;> simp [h]

/-- Witness for claim C4 at both mode choices on a concrete artifact set. -/
theorem mode_isolation_witness :
    (("With Xylene" : String) = "With Xylene" ∧
      select_model "With Xylene" (⟨1, 2, 3, 4⟩ : Artifacts ℕ ℕ) = 1 ∧
      select_scaler "With Xylene" (⟨1, 2, 3, 4⟩ : Artifacts ℕ ℕ) = 3) ∧
    (("Without Xylene" : String) ≠ "With Xylene" ∧
      select_model "Without Xylene" (⟨1, 2, 3, 4⟩ : Artifacts ℕ ℕ) = 2 ∧
      select_scaler "Without Xylene" (⟨1, 2, 3, 4⟩ : Artifacts ℕ ℕ) = 4) :=
  ⟨⟨rfl, (mode_isolation "With Xylene" (⟨1, 2, 3, 4⟩ : Artifacts ℕ ℕ)).1 rfl⟩,
   ⟨by decide, (mode_isolation "Without Xylene"
      (⟨1, 2, 3, 4⟩ : Artifacts ℕ ℕ)).2.1 (by decide)⟩⟩

/-- Claim C5: the "without" schema has exactly 11 pollutant names in a fixed
order; the "with" schema is the "without" schema with Xylene appended, giving
12 entries with Xylene as the 12th; schema selection is by mode; and the
assembled feature vector follows the selected schema order exactly. -/
theorem feature_schema :
    features_without.length = 11 ∧
    features_with = features_without ++ ["Xylene"] ∧
    features_with.length = 12 ∧
    features_with[11]? = some "Xylene" ∧
    selected_features "With Xylene" = features_with ∧
    (∀ c : String, c ≠ "With Xylene" → selected_features c = features_without) ∧
    (∀ (c : String) (vals : String → ℚ),
      assemble_input c vals = (selected_features c).map vals ∧
      (assemble_input c vals).length = (selected_features c).length) := by
  refine ⟨rfl, rfl, rfl, rfl, by simp [selected_features],
    fun c hc => ?_, fun c vals => ?_⟩
  · simp [selected_features, hc]
  · exact ⟨rfl, by simp [assemble_input]⟩

/-- Witness for claim C5: the choice "Without Xylene" is not "With Xylene",
so it selects the 11-feature schema. -/
theorem feature_schema_witness :
    ("Without Xylene" : String) ≠ "With Xylene" ∧
    selected_features "Without Xylene" = features_without :=
  ⟨by decide, feature_schema.2.2.2.2.2.1 "Without Xylene" (by decide)⟩

/-- Claim C6: if any of the four artifacts fails to load at startup, the
script halts before any prediction can be attempted — the prediction
interface never becomes available — and the displayed startup errors include
the `load_pickle` message naming the failing path. -/
theorem startup_halts_on_load_failure {α : Type}
    (read_pickle : String → Except String α) (path cause : String)
    (hp : path ∈ artifact_paths)
    (hr : read_pickle path = Except.error cause) :
    prediction_available (startup read_pickle) = false ∧
    load_error_message path cause ∈ displayed_errors (startup read_pickle) := by
  simp only [artifact_paths, List.mem_cons, List.mem_singleton,
    List.not_mem_nil, or_false] at hp
  rcases hp with rfl | rfl | rfl | rfl
  · cases h2 : read_pickle "best_model.pkl" <;>
    cases h3 : read_pickle "scaler_with.pkl" <;>
    cases h4 : read_pickle "scaler_without.pkl" <;>
    simp [startup, load_pickle, hr, h2, h3, h4,
      prediction_available, displayed_errors]
  · cases h1 : read_pickle "best_model_with_Xylene.pkl" <;>
    cases h3 : read_pickle "scaler_with.pkl" <;>
    cases h4 : read_pickle "scaler_without.pkl" <;>
    simp [startup, load_pickle, hr, h1, h3, h4,
      prediction_available, displayed_errors]
  · cases h1 : read_pickle "best_model_with_Xylene.pkl" <;>
    cases h2 : read_pickle "best_model.pkl" <;>
    cases h4 : read_pickle "scaler_without.pkl" <;>
    simp [startup, load_pickle, hr, h1, h2, h4,
      prediction_available, displayed_errors]
  · cases h1 : read_pickle "best_model_with_Xylene.pkl" <;>
    cases h2 : read_pickle "best_model.pkl" <;>
    cases h3 : read_pickle "scaler_with.pkl" <;>
    simp [startup, load_pickle, hr, h1, h2, h3,
      prediction_available, displayed_errors]

/-- Witness for claim C6: with every file read failing, the run halts and
displays the message naming `best_model.pkl`. -/
theorem startup_halts_witness :
    ("best_model.pkl" ∈ artifact_paths ∧
      broken_read "best_model.pkl" =
        Except.error "No such file or directory") ∧
    (prediction_available (startup broken_read) = false ∧
      load_error_message "best_model.pkl" "No such file or directory" ∈
        displayed_errors (startup broken_read)) :=
  ⟨⟨by simp [artifact_paths], rfl⟩,
    startup_halts_on_load_failure broken_read "best_model.pkl"
      "No such file or directory" (by simp [artifact_paths]) rfl⟩

/-- Claim C7: a failure raised during transform or predict makes the
interaction abort with the user-visible message built from the failure text,
and an aborted interaction never displays a calibrated value or bucket. -/
theorem prediction_failure_aborts
    (transform predict : List ℚ → Except String (List ℚ))
    (input_values : List ℚ) (e : String) :
    (transform input_values = Except.error e →
      predict_interaction transform predict input_values =
        Outcome.aborted ("Prediction failed: " ++ e)) ∧
    (∀ scaled, transform input_values = Except.ok scaled →
      predict scaled = Except.error e →
      predict_interaction transform predict input_values =
        Outcome.aborted ("Prediction failed: " ++ e)) ∧
    (∀ msg v b m, predict_interaction transform predict input_values =
        Outcome.aborted msg →
      predict_interaction transform predict input_values ≠
        Outcome.displayed v b m) := by
  refine ⟨fun ht => ?_, fun scaled ht hp => ?_, fun msg v b m ha hd => ?_⟩
  · simp [predict_interaction, ht]
  · simp [predict_interaction, ht, hp]
  · rw [ha] at hd
    exact Outcome.noConfusion hd

/-- Witness for claim C7: a transform that raises a shape mismatch makes the
interaction abort with that message. -/
theorem prediction_failure_aborts_witness :
    ((fun _ => Except.error "shape mismatch" :
        List ℚ → Except String (List ℚ)) [0] =
      Except.error "shape mismatch") ∧
    predict_interaction (fun _ => Except.error "shape mismatch")
        (fun l => Except.ok l) [0] =
      Outcome.aborted ("Prediction failed: " ++ "shape mismatch") :=
  ⟨rfl, (prediction_failure_aborts (fun _ => Except.error "shape mismatch")
      (fun l => Except.ok l) [0] "shape mismatch").1 rfl⟩

/-- Claim C8: the calibration function is monotonic non-decreasing — raising
the raw prediction never lowers the calibrated, clipped AQI. -/
theorem calibrate_monotone (r1 r2 : ℚ) (h : r1 ≤ r2) :
    calibrate r1 ≤ calibrate r2 := by
  unfold calibrate np_clip calibrated_raw
  have hm : (1.05 : ℚ) * r1 + 10 ≤ 1.05 * r2 + 10 := by nlinarith
  exact min_le_min (max_le_max hm le_rfl) le_rfl

/-- Witness for claim C8 at the raw predictions 3 and 4. -/
theorem calibrate_monotone_witness :
    (3 : ℚ) ≤ 4 ∧ calibrate 3 ≤ calibrate 4 :=
  ⟨by norm_num, calibrate_monotone 3 4 (by norm_num)⟩

/-- Claim C9: `assign_aqi_bucket` is total over all rational inputs — it
always returns one of the six fixed (label, marker) pairs, every input at
most 50 (negative values included) maps to Good, and every input above 400
(values above 500 included) maps to Severe. -/
theorem bucket_total_on_rationals (aqi : ℚ) :
    assign_aqi_bucket aqi ∈ bucket_table ∧
    (aqi ≤ 50 → assign_aqi_bucket aqi = ("Good", "🟢")) ∧
    (400 < aqi → assign_aqi_bucket aqi = ("Severe", "⚫")) := by
  unfold assign_aqi_bucket
  split_ifs with h1 h2 h3 h4 h5 <;>
    refine ⟨by simp [bucket_table], fun h => ?_, fun h => ?_⟩ <;>
    first
      | rfl
      | (exfalso; linarith)

/-- Witness for claim C9 at the unclamped values -7 and 1000. -/
theorem bucket_total_witness :
    assign_aqi_bucket (-7) = ("Good", "🟢") ∧
    assign_aqi_bucket 1000 = ("Severe", "⚫") :=
  ⟨(bucket_total_on_rationals (-7)).2.1 (by norm_num),
   (bucket_total_on_rationals 1000).2.2 (by norm_num)⟩

/-- Claim C10: `load_pickle` never propagates a failure — for every path it
either returns the deserialized artifact with no error shown, or returns
`none` while surfacing one message that contains both the path and the
underlying cause. -/
theorem load_pickle_never_raises {α : Type}
    (read_pickle : String → Except String α) (path : String) :
    (∃ a, read_pickle path = Except.ok a ∧
      load_pickle read_pickle path = (some a, [])) ∨
    (∃ e, read_pickle path = Except.error e ∧
      load_pickle read_pickle path = (none, [load_error_message path e]) ∧
      (∃ s t, load_error_message path e = s ++ path ++ t) ∧
      (∃ u, load_error_message path e = u ++ e)) := by
  cases h : read_pickle path with
  | ok a =>
    exact Or.inl ⟨a, rfl, by simp [load_pickle, h]⟩
  | error e =>
    refine Or.inr ⟨e, rfl, by simp [load_pickle, h], ?_, ?_⟩
    · exact ⟨"❌ Failed to load file: ", "\nError: " ++ e, by
        simp [load_error_message, String.append_assoc]⟩
    · exact ⟨"❌ Failed to load file: " ++ path ++ "\nError: ", by
        simp [load_error_message, String.append_assoc]⟩

end AQIApp
